import Mathlib

/-!
Verification of the canary-controller core of the cluster-ingress-operator
repository: the port rotator (`chooseRandomServicePort`), the route endpoint
prober (`testRouteEndpoint`), the rotation wrapper (`rotateRouteEndpoint`),
the monitor loop body (`startCanaryRoutePolling`'s per-tick closure, embedded
as `monitorTick`) and the route update helpers (`canaryRouteChanged`,
`updateCanaryRoute`).

The embedding is shallow: Go structs become Lean structures, the global
`math/rand` source becomes an explicit `seed : Nat` (the drawn index is
`seed % n`, which ranges over every index the Go call `rand.Intn(n)` can
produce), the Kubernetes client and the network become explicit environment
values, and a Go `panic` (nil-pointer dereference, `rand.Intn(0)`) becomes a
distinguished result constructor.
-/

namespace Canary

/-- Result of a Go call: a normal value, a non-nil `error`, or a panic
(`rand.Intn(0)` on an empty slice, nil-pointer dereference). -/
inductive GoResult (α : Type) where
  | ok (val : α)
  | err (msg : String)
  | panics
deriving DecidableEq, Repr

/-- `GoResult.isErr r` holds exactly when the call returned a non-nil error. -/
def GoResult.isErr {α : Type} : GoResult α → Bool
  | .err _ => true
  | _ => false

/-- Go `intstr.IntOrString`: a port reference that is either a number or a
name, compared by value equality (as `cmp.Equal` does). -/
inductive IntOrString where
  | int (n : Int)
  | str (s : String)
deriving DecidableEq, Repr

/-- `intstr.IntOrString.String()`: the numeric value rendered in decimal, or
the string value itself. -/
def IntOrString.toStr : IntOrString → String
  | .int n => toString n
  | .str s => s

/-- One entry of `corev1.Service.Spec.Ports`; the canary code reads only
`TargetPort`. -/
structure ServicePort where
  name : String
  targetPort : IntOrString
deriving DecidableEq, Repr

/-- `corev1.ServiceSpec`, restricted to the field the canary code reads. -/
structure ServiceSpec where
  ports : List ServicePort
deriving DecidableEq, Repr

/-- `corev1.Service`, restricted to the fields the canary code reads. -/
structure Service where
  spec : ServiceSpec
deriving DecidableEq, Repr

/-- `routev1.RoutePort`. -/
structure RoutePort where
  targetPort : IntOrString
deriving DecidableEq, Repr

/-- `routev1.RouteSpec`, restricted to the fields the canary code reads:
`Host`, `To.Name` and `Port` (a nilable pointer, hence `Option`). -/
structure RouteSpec where
  host : String
  toName : String
  port : Option RoutePort
deriving DecidableEq, Repr

/-- `routev1.Route`, restricted to its spec (the only part the canary code
compares and rewrites). -/
structure Route where
  spec : RouteSpec
deriving DecidableEq, Repr

/-- The `availablePorts` slice built inside `chooseRandomServicePort`: the
target ports of the service ports whose `TargetPort` is not `cmp.Equal` to
the current route port's `TargetPort`, in service order. -/
def availablePortsOf (service : Service) (currentPort : RoutePort) : List IntOrString :=
  (service.spec.ports.filter
    (fun port => decide ¬(port.targetPort = currentPort.targetPort))).map
    (fun port => port.targetPort)

/-- The element `availablePorts[rand.Intn(len(availablePorts))]`: the Go
index `rand.Intn n` is some value below `n`, modelled as `seed % n`. -/
def pickPort (seed : Nat) (l : List IntOrString) (h : ¬l.length = 0) : IntOrString :=
  l.get ⟨seed % l.length, Nat.mod_lt seed (Nat.pos_of_ne_zero h)⟩

/-- The assignment `updated.Spec.Port = &routev1.RoutePort{TargetPort: tp}`
performed on the deep copy of the route. -/
def withTargetPort (route : Route) (tp : IntOrString) : Route :=
  { route with
    spec := { route.spec with port := some { targetPort := tp } } }

/-- `chooseRandomServicePort` from the canary controller: errors on zero or
one service ports, dereferences `route.Spec.Port` (panic when nil), filters
the current target port out of the service ports and indexes the remaining
slice with `rand.Intn` (panic when the slice is empty, any index `seed % n`
otherwise), returning a copy of the route pointing at the drawn port. -/
def chooseRandomServicePort (seed : Nat) (service : Service) (route : Route) :
    GoResult Route :=
  if service.spec.ports.length = 0 then
    GoResult.err "Service has no ports"
  else if service.spec.ports.length = 1 then
    GoResult.err "Service has only one port, no change possible"
  else
    match route.spec.port with
    | none => GoResult.panics
    | some currentPort =>
      if h : (availablePortsOf service currentPort).length = 0 then
        GoResult.panics
      else
        GoResult.ok (withTargetPort route (pickPort seed (availablePortsOf service currentPort) h))

/-! ### Unfolding and membership lemmas -/

@[simp] theorem withTargetPort_spec_port (route : Route) (tp : IntOrString) :
    (withTargetPort route tp).spec.port = some { targetPort := tp } := rfl

theorem pickPort_mem (seed : Nat) (l : List IntOrString) (h : ¬l.length = 0) :
    pickPort seed l h ∈ l :=
  List.get_mem l _ _

theorem pickPort_of_eq_singleton (seed : Nat) {l : List IntOrString}
    {b : IntOrString} (hl : l = [b]) (h : ¬l.length = 0) :
    pickPort seed l h = b := by
  subst hl
  unfold pickPort
  simp

theorem chooseRandomServicePort_of_some (seed : Nat) (service : Service)
    (route : Route) (c : RoutePort) (hport : route.spec.port = some c)
    (h2 : 2 ≤ service.spec.ports.length) :
    chooseRandomServicePort seed service route =
      if h : (availablePortsOf service c).length = 0 then
        GoResult.panics
      else
        GoResult.ok (withTargetPort route (pickPort seed (availablePortsOf service c) h)) := by
  unfold chooseRandomServicePort
  rw [if_neg (by omega), if_neg (by omega), hport]

theorem chooseRandomServicePort_of_none (seed : Nat) (service : Service)
    (route : Route) (hport : route.spec.port = none)
    (h2 : 2 ≤ service.spec.ports.length) :
    chooseRandomServicePort seed service route = GoResult.panics := by
  unfold chooseRandomServicePort
  rw [if_neg (by omega), if_neg (by omega), hport]

theorem mem_availablePortsOf {service : Service} {c : RoutePort} {p : ServicePort}
    (hp : p ∈ service.spec.ports) (hne : p.targetPort ≠ c.targetPort) :
    p.targetPort ∈ availablePortsOf service c := by
  unfold availablePortsOf
  exact List.mem_map_of_mem _ (List.mem_filter.mpr ⟨hp, by simpa using hne⟩)

theorem availablePortsOf_sound {service : Service} {c : RoutePort} {x : IntOrString}
    (hx : x ∈ availablePortsOf service c) :
    x ∈ service.spec.ports.map ServicePort.targetPort ∧ x ≠ c.targetPort := by
  unfold availablePortsOf at hx
  obtain ⟨p, hpf, rfl⟩ := List.mem_map.mp hx
  have hmem := List.mem_filter.mp hpf
  refine ⟨List.mem_map_of_mem _ hmem.1, ?_⟩
  simpa using hmem.2

theorem availablePortsOf_eq_filter (service : Service) (c : RoutePort) :
    availablePortsOf service c =
      (service.spec.ports.map ServicePort.targetPort).filter
        (fun tp => decide ¬(tp = c.targetPort)) := by
  unfold availablePortsOf
  induction service.spec.ports with
  | nil => rfl
  | cons p rest ih =>
    by_cases h : p.targetPort = c.targetPort <;>
      simpa [List.filter_cons, h] using ih

/-- C1: with at least two service ports, a current route port, and two
service ports of distinct target-port values, `chooseRandomServicePort`
returns (for every state of the random source) a route whose target port is
one of the service's target ports and differs from the current one. -/
theorem chooseRandomServicePort_rotates_to_new_port (seed : Nat)
    (service : Service) (route : Route) (c : RoutePort)
    (hport : route.spec.port = some c)
    (hlen : 2 ≤ service.spec.ports.length)
    (hdistinct : ∃ p ∈ service.spec.ports, ∃ q ∈ service.spec.ports,
      p.targetPort ≠ q.targetPort) :
    ∃ updated, chooseRandomServicePort seed service route = GoResult.ok updated ∧
      ∃ rp, updated.spec.port = some rp ∧
        rp.targetPort ∈ service.spec.ports.map ServicePort.targetPort ∧
        rp.targetPort ≠ c.targetPort := by
  obtain ⟨p, hp, q, hq, hpq⟩ := hdistinct
  have hnonempty : ∃ x, x ∈ availablePortsOf service c := by
    by_cases hpc : p.targetPort = c.targetPort
    · exact ⟨q.targetPort, mem_availablePortsOf hq (by rw [← hpc]; exact (Ne.symm hpq))⟩
    · exact ⟨p.targetPort, mem_availablePortsOf hp hpc⟩
  have hlen0 : ¬(availablePortsOf service c).length = 0 := by
    obtain ⟨x, hx⟩ := hnonempty
    intro h0
    rw [List.length_eq_zero] at h0
    rw [h0] at hx
    exact (List.not_mem_nil x) hx
  rw [chooseRandomServicePort_of_some seed service route c hport hlen, dif_neg hlen0]
  refine ⟨_, rfl, _, rfl, ?_⟩
  exact availablePortsOf_sound (pickPort_mem seed _ hlen0)

/-- C1 witness: a two-port service rotates a route off port 8080. -/
theorem chooseRandomServicePort_rotates_to_new_port_witness :
    ∃ updated,
      chooseRandomServicePort 5
        ⟨⟨[⟨"http", .int 8080⟩, ⟨"https", .int 8888⟩]⟩⟩
        ⟨⟨"canary.example.com", "ingress-canary", some ⟨.int 8080⟩⟩⟩ =
          GoResult.ok updated ∧
      ∃ rp, updated.spec.port = some rp ∧
        rp.targetPort ∈ ([⟨"http", .int 8080⟩, ⟨"https", .int 8888⟩] :
          List ServicePort).map ServicePort.targetPort ∧
        rp.targetPort ≠ IntOrString.int 8080 :=
  chooseRandomServicePort_rotates_to_new_port 5
    ⟨⟨[⟨"http", .int 8080⟩, ⟨"https", .int 8888⟩]⟩⟩
    ⟨⟨"canary.example.com", "ingress-canary", some ⟨.int 8080⟩⟩⟩
    ⟨.int 8080⟩ rfl (by decide) (by decide)

/-- C5: `chooseRandomServicePort` returns a non-nil error exactly when the
service port list is empty or a singleton; the empty list yields the
no-ports message and the singleton the single-port message. -/
theorem chooseRandomServicePort_error_iff (seed : Nat) (service : Service)
    (route : Route) :
    ((chooseRandomServicePort seed service route).isErr = true ↔
      (service.spec.ports.length = 0 ∨ service.spec.ports.length = 1)) ∧
    (service.spec.ports.length = 0 →
      chooseRandomServicePort seed service route =
        GoResult.err "Service has no ports") ∧
    (service.spec.ports.length = 1 →
      chooseRandomServicePort seed service route =
        GoResult.err "Service has only one port, no change possible") := by
  refine ⟨⟨?_, ?_⟩, ?_, ?_⟩
  · intro herr
    by_contra hlen
    push_neg at hlen
    have h2 : 2 ≤ service.spec.ports.length := by omega
    match hmp : route.spec.port with
    | none =>
      rw [chooseRandomServicePort_of_none seed service route hmp h2] at herr
      simp [GoResult.isErr] at herr
    | some c =>
      rw [chooseRandomServicePort_of_some seed service route c hmp h2] at herr
      by_cases h0 : (availablePortsOf service c).length = 0
      · rw [dif_pos h0] at herr; simp [GoResult.isErr] at herr
      · rw [dif_neg h0] at herr; simp [GoResult.isErr] at herr
  · intro hlen
    unfold chooseRandomServicePort
    rcases hlen with h0 | h1
    · rw [if_pos h0]; simp [GoResult.isErr]
    · rw [if_neg (by omega), if_pos h1]; simp [GoResult.isErr]
  · intro h0
    unfold chooseRandomServicePort
    rw [if_pos h0]
  · intro h1
    unfold chooseRandomServicePort
    rw [if_neg (by omega), if_pos h1]

/-- C5 witness: the empty service yields the no-ports error, evaluated from
the theorem at a concrete input. -/
theorem chooseRandomServicePort_error_iff_witness :
    chooseRandomServicePort 0 ⟨⟨[]⟩⟩
      ⟨⟨"canary.example.com", "ingress-canary", some ⟨.int 8080⟩⟩⟩ =
      GoResult.err "Service has no ports" :=
  (chooseRandomServicePort_error_iff 0 ⟨⟨[]⟩⟩
    ⟨⟨"canary.example.com", "ingress-canary", some ⟨.int 8080⟩⟩⟩).2.1 rfl

/-- C7: with the service's target ports exactly the set `{A, B}` (`A ≠ B`,
in either listing order) and the route on `A`, every state of the random
source yields the route on `B`: with a single alternative the selection is
deterministic. -/
theorem two_port_rotation_deterministic (seed : Nat) (A B : IntOrString)
    (service : Service) (route : Route)
    (hports : (service.spec.ports.map ServicePort.targetPort).Perm [A, B])
    (hAB : A ≠ B)
    (hcur : route.spec.port = some ⟨A⟩) :
    ∃ updated, chooseRandomServicePort seed service route = GoResult.ok updated ∧
      updated.spec.port = some ⟨B⟩ := by
  have hlen : service.spec.ports.length = 2 := by
    have := hports.length_eq
    simpa using this
  have hperm : (availablePortsOf service ⟨A⟩).Perm
      ([A, B].filter (fun tp => decide ¬(tp = (⟨A⟩ : RoutePort).targetPort))) := by
    rw [availablePortsOf_eq_filter]
    exact hports.filter _
  have havail : availablePortsOf service ⟨A⟩ = [B] := by
    refine List.perm_singleton.mp ?_
    simpa [List.filter_cons, hAB.symm] using hperm
  have hlen0 : ¬(availablePortsOf service ⟨A⟩).length = 0 := by
    rw [havail]; simp
  rw [chooseRandomServicePort_of_some seed service route ⟨A⟩ hcur (by omega),
    dif_neg hlen0]
  exact ⟨_, rfl, by simp [pickPort_of_eq_singleton seed havail hlen0]⟩

/-- C7 witness: service ports listed `[8888, 8080]` — the current port
second — with the route on 8080 and seed 41 → route on 8888. -/
theorem two_port_rotation_deterministic_witness :
    ∃ updated,
      chooseRandomServicePort 41
        ⟨⟨[⟨"https", .int 8888⟩, ⟨"http", .int 8080⟩]⟩⟩
        ⟨⟨"canary.example.com", "ingress-canary", some ⟨.int 8080⟩⟩⟩ =
        GoResult.ok updated ∧
      updated.spec.port = some ⟨.int 8888⟩ :=
  two_port_rotation_deterministic 41 (.int 8080) (.int 8888)
    ⟨⟨[⟨"https", .int 8888⟩, ⟨"http", .int 8080⟩]⟩⟩
    ⟨⟨"canary.example.com", "ingress-canary", some ⟨.int 8080⟩⟩⟩
    (by decide) (by decide) rfl

/-- C10: when the service has at least two ports but every one of them
carries the current route's target port, the filtered alternative slice is
empty and `chooseRandomServicePort` reaches `rand.Intn(0)`, a panic. -/
theorem chooseRandomServicePort_panics_when_no_alternative (seed : Nat)
    (service : Service) (route : Route) (c : RoutePort)
    (hport : route.spec.port = some c)
    (hlen : 2 ≤ service.spec.ports.length)
    (hall : ∀ p ∈ service.spec.ports, p.targetPort = c.targetPort) :
    availablePortsOf service c = [] ∧
      chooseRandomServicePort seed service route = GoResult.panics := by
  have hempty : availablePortsOf service c = [] := by
    unfold availablePortsOf
    rw [List.filter_eq_nil_iff.mpr (fun p hp => by simpa using hall p hp)]
    rfl
  refine ⟨hempty, ?_⟩
  rw [chooseRandomServicePort_of_some seed service route c hport hlen,
    dif_pos (by rw [hempty]; rfl)]

/-- C10 witness: two service ports both targeting 8080, route on 8080 →
empty alternative slice and a panic. -/
theorem chooseRandomServicePort_panics_when_no_alternative_witness :
    availablePortsOf ⟨⟨[⟨"a", .int 8080⟩, ⟨"b", .int 8080⟩]⟩⟩ ⟨.int 8080⟩ = [] ∧
      chooseRandomServicePort 3 ⟨⟨[⟨"a", .int 8080⟩, ⟨"b", .int 8080⟩]⟩⟩
        ⟨⟨"canary.example.com", "ingress-canary", some ⟨.int 8080⟩⟩⟩ =
        GoResult.panics :=
  chooseRandomServicePort_panics_when_no_alternative 3
    ⟨⟨[⟨"a", .int 8080⟩, ⟨"b", .int 8080⟩]⟩⟩
    ⟨⟨"canary.example.com", "ingress-canary", some ⟨.int 8080⟩⟩⟩
    ⟨.int 8080⟩ rfl (by decide) (by decide)

/-! ### The probe client and result classifier (`testRouteEndpoint`) -/

/-- Whether the first list is an initial segment of the second. -/
def listIsPref : List Char → List Char → Bool
  | [], _ => true
  | _ :: _, [] => false
  | a :: as, b :: bs => a == b && listIsPref as bs

/-- Whether `sub` occurs contiguously somewhere in the list. -/
def hasSubList (sub : List Char) : List Char → Bool
  | [] => sub.isEmpty
  | l@(_ :: rest) => listIsPref sub l || hasSubList sub rest

/-- Go `strings.Contains(s, sub)`. -/
def strContains (s sub : String) : Bool :=
  hasSubList sub.data s.data

/-- Go `http.Header.Get(key)`: the first value stored under the key, or the
empty string when the header is absent. -/
def headerGet (headers : List (String × String)) (key : String) : String :=
  match headers.find? (fun kv => kv.fst == key) with
  | some kv => kv.snd
  | none => ""

/-- The marker `testRouteEndpoint` expects in the canary response body. -/
def canaryMarker : String := "Hello OpenShift!"

/-- The part of an HTTP response `testRouteEndpoint` reads: status code,
fully read body, response headers. -/
structure HTTPResponse where
  statusCode : Int
  body : String
  headers : List (String × String)
deriving DecidableEq, Repr

/-- The network's behaviour during one probe: `http.NewRequest` fails, the
client's `Do` fails with a DNS error (`net.DNSError` matched by
`errors.As`), `Do` fails with any other transport error, reading the body
fails, or a response arrives. -/
inductive ProbeEnv where
  | requestError (msg : String)
  | dnsError (msg : String)
  | transportError (msg : String)
  | readError (msg : String)
  | response (resp : HTTPResponse)
deriving DecidableEq, Repr

/-- What one call of `testRouteEndpoint` returns and does: the returned
bool, the returned error message (`none` for a nil error), how many times
`CanaryEndpointWrongPortEcho.Inc()` ran, how many latency samples
`CanaryRequestTime...Observe` recorded, and whether `client.Do` was ever
invoked. -/
structure ProbeResult where
  success : Bool
  errMsg : Option String
  wrongPortIncr : Nat
  latencySamples : Nat
  requestIssued : Bool
deriving DecidableEq, Repr

/-- `testRouteEndpoint` from the canary controller, in source order: empty
host fails before any request; then request-creation, send (DNS
distinguished from other transport errors) and body-read errors; then empty
body; then missing marker; then missing `request-port` header; then the
port comparison `strings.Contains(routePortStr, recPort)` (incrementing the
wedged-router counter on mismatch; dereferencing the nil route port is a
panic, `none`); and only last the status-code switch, where 200 records a
latency sample and succeeds. -/
def testRouteEndpoint (route : Route) (env : ProbeEnv) : Option ProbeResult :=
  if route.spec.host = "" then
    some ⟨false, some "route.Spec.Host is nil, cannot test route", 0, 0, false⟩
  else
    match env with
    | .requestError m =>
      some ⟨false, some ("Error creating canary HTTP request: " ++ m), 0, 0, false⟩
    | .dnsError m =>
      some ⟨false, some ("Error sending canary HTTP request: DNS error: " ++ m), 0, 0, true⟩
    | .transportError m =>
      some ⟨false, some ("Error sending canary HTTP request on host " ++ route.spec.host ++ ": " ++ m), 0, 0, true⟩
    | .readError m =>
      some ⟨false, some ("Error reading canary response body: " ++ m), 0, 0, true⟩
    | .response resp =>
      if resp.body = "" then
        some ⟨false, some "Expected canary response body to not be nil", 0, 0, true⟩
      else if strContains resp.body canaryMarker = false then
        some ⟨false, some ("Expected canary request body to contain " ++ canaryMarker ++ ", instead got " ++ resp.body), 0, 0, true⟩
      else if headerGet resp.headers "request-port" = "" then
        some ⟨false, some "Expected request-port header in canary response to have a non-nil value", 0, 0, true⟩
      else
        match route.spec.port with
        | none => none
        | some routePort =>
          if strContains routePort.targetPort.toStr (headerGet resp.headers "request-port") = false then
            some ⟨false, some ("Canary request received on port " ++ headerGet resp.headers "request-port" ++ ", but route specifies " ++ routePort.targetPort.toStr), 1, 0, true⟩
          else if resp.statusCode = 200 then
            some ⟨true, none, 0, 1, true⟩
          else if resp.statusCode = 408 then
            some ⟨false, some ("Status code " ++ toString resp.statusCode ++ ": request timed out"), 0, 0, true⟩
          else if resp.statusCode = 503 then
            some ⟨false, some ("Status code " ++ toString resp.statusCode ++ ": Route not available via router"), 0, 0, true⟩
          else
            some ⟨false, some ("Unexpected status code: " ++ toString resp.statusCode), 0, 0, true⟩

/-- C6: the endpoint test applies its checks in fixed precedence order — an
empty host fails without issuing any request and regardless of the network
(`env` arbitrary, `requestIssued = false`); a DNS- or transport-class send
error is classified irrespective of anything else; then an empty body; then
a body missing the marker (headers and status arbitrary); then a mismatched
`request-port` header, reported before the status code is ever evaluated
(`resp.statusCode` arbitrary). -/
theorem testRouteEndpoint_precedence (route : Route) (p : RoutePort)
    (resp : HTTPResponse) (env : ProbeEnv) (m : String) :
    (route.spec.host = "" →
      testRouteEndpoint route env =
        some ⟨false, some "route.Spec.Host is nil, cannot test route", 0, 0, false⟩) ∧
    (route.spec.host ≠ "" →
      testRouteEndpoint route (.dnsError m) =
        some ⟨false, some ("Error sending canary HTTP request: DNS error: " ++ m), 0, 0, true⟩) ∧
    (route.spec.host ≠ "" →
      testRouteEndpoint route (.transportError m) =
        some ⟨false, some ("Error sending canary HTTP request on host " ++ route.spec.host ++ ": " ++ m), 0, 0, true⟩) ∧
    (route.spec.host ≠ "" → resp.body = "" →
      testRouteEndpoint route (.response resp) =
        some ⟨false, some "Expected canary response body to not be nil", 0, 0, true⟩) ∧
    (route.spec.host ≠ "" → resp.body ≠ "" →
      strContains resp.body canaryMarker = false →
      testRouteEndpoint route (.response resp) =
        some ⟨false, some ("Expected canary request body to contain " ++ canaryMarker ++ ", instead got " ++ resp.body), 0, 0, true⟩) ∧
    (route.spec.host ≠ "" → resp.body ≠ "" →
      strContains resp.body canaryMarker = true →
      headerGet resp.headers "request-port" ≠ "" →
      route.spec.port = some p →
      strContains p.targetPort.toStr (headerGet resp.headers "request-port") = false →
      testRouteEndpoint route (.response resp) =
        some ⟨false, some ("Canary request received on port " ++ headerGet resp.headers "request-port" ++ ", but route specifies " ++ p.targetPort.toStr), 1, 0, true⟩) := by
  refine ⟨?_, ?_, ?_, ?_, ?_, ?_⟩
  · intro h
    unfold testRouteEndpoint
    rw [if_pos h]
  · intro h
    unfold testRouteEndpoint
    rw [if_neg h]
  · intro h
    unfold testRouteEndpoint
    rw [if_neg h]
  · intro h hb
    unfold testRouteEndpoint
    rw [if_neg h]
    simp only [if_pos hb]
  · intro h hb hm
    unfold testRouteEndpoint
    rw [if_neg h]
    simp only [if_neg hb, if_pos hm]
  · intro h hb hm hh hp hmis
    unfold testRouteEndpoint
    rw [if_neg h]
    simp only [if_neg hb, hm, if_neg hh, hp]
    simp [hmis]

/-- C6 witness: a mismatched port header on a 503 response is reported as
the wrong-port failure before the status code is considered. -/
theorem testRouteEndpoint_precedence_witness :
    testRouteEndpoint ⟨⟨"canary.example.com", "ingress-canary", some ⟨.str "8080-tcp"⟩⟩⟩
      (.response ⟨503, "Hello OpenShift!", [("request-port", "9999")]⟩) =
      some ⟨false, some ("Canary request received on port " ++
        headerGet [("request-port", "9999")] "request-port" ++
        ", but route specifies " ++ (IntOrString.str "8080-tcp").toStr), 1, 0, true⟩ :=
  (testRouteEndpoint_precedence
    ⟨⟨"canary.example.com", "ingress-canary", some ⟨.str "8080-tcp"⟩⟩⟩
    ⟨.str "8080-tcp"⟩ ⟨503, "Hello OpenShift!", [("request-port", "9999")]⟩
    (.response ⟨503, "Hello OpenShift!", [("request-port", "9999")]⟩)
    "unused").2.2.2.2.2 (by decide) (by decide) (by decide) (by decide) rfl (by decide)

/-- C3 counterexample: the route expects target port 8080 and the response's
`request-port` header reads 80 — a value different from the expected port —
yet the probe succeeds and the wedged-router counter is not incremented,
because the code compares with `strings.Contains("8080", "80")`. -/
theorem wrong_port_counter_not_incremented_cex :
    headerGet [("request-port", "80")] "request-port" ≠ (IntOrString.int 8080).toStr ∧
    testRouteEndpoint ⟨⟨"canary.example.com", "ingress-canary", some ⟨.int 8080⟩⟩⟩
      (.response ⟨200, "Hello OpenShift!", [("request-port", "80")]⟩) =
      some ⟨true, none, 0, 1, true⟩ := by
  decide

/-- C3 amended: for a probe response carrying a `request-port` header, the
wedged-router counter is incremented (exactly once) and the probe fails when
the header's value is not a substring of the route's expected target-port
string; when it is a substring, the counter is not incremented. -/
theorem wrong_port_echo_counter (route : Route) (p : RoutePort)
    (resp : HTTPResponse)
    (hhost : route.spec.host ≠ "") (hport : route.spec.port = some p)
    (hbody : resp.body ≠ "")
    (hmark : strContains resp.body canaryMarker = true)
    (hhdr : headerGet resp.headers "request-port" ≠ "") :
    (strContains p.targetPort.toStr (headerGet resp.headers "request-port") = false →
      testRouteEndpoint route (.response resp) =
        some ⟨false, some ("Canary request received on port " ++ headerGet resp.headers "request-port" ++ ", but route specifies " ++ p.targetPort.toStr), 1, 0, true⟩) ∧
    (strContains p.targetPort.toStr (headerGet resp.headers "request-port") = true →
      ∃ res, testRouteEndpoint route (.response resp) = some res ∧
        res.wrongPortIncr = 0) := by
  constructor
  · intro hmis
    unfold testRouteEndpoint
    rw [if_neg hhost]
    simp only [if_neg hbody, hmark, if_neg hhdr, hport]
    simp [hmis]
  · intro hsub
    unfold testRouteEndpoint
    rw [if_neg hhost]
    simp only [if_neg hbody, hmark, if_neg hhdr, hport]
    simp only [hsub]
    by_cases h200 : resp.statusCode = 200
    · exact ⟨⟨true, none, 0, 1, true⟩, by simp [h200], rfl⟩
    · by_cases h408 : resp.statusCode = 408
      · exact ⟨⟨false, some ("Status code " ++ toString resp.statusCode ++ ": request timed out"), 0, 0, true⟩,
          by simp [h200, h408], rfl⟩
      · by_cases h503 : resp.statusCode = 503
        · exact ⟨⟨false, some ("Status code " ++ toString resp.statusCode ++ ": Route not available via router"), 0, 0, true⟩,
            by simp [h200, h408, h503], rfl⟩
        · exact ⟨⟨false, some ("Unexpected status code: " ++ toString resp.statusCode), 0, 0, true⟩,
            by simp [h200, h408, h503], rfl⟩

/-- C3 amended witness: header 9, expected port 8080 (no substring
relation) → wrong-port failure with one counter increment. -/
theorem wrong_port_echo_counter_witness :
    testRouteEndpoint ⟨⟨"canary.example.com", "ingress-canary", some ⟨.int 8080⟩⟩⟩
      (.response ⟨200, "Hello OpenShift!", [("request-port", "9")]⟩) =
      some ⟨false, some ("Canary request received on port " ++
        headerGet [("request-port", "9")] "request-port" ++
        ", but route specifies " ++ (IntOrString.int 8080).toStr), 1, 0, true⟩ :=
  (wrong_port_echo_counter
    ⟨⟨"canary.example.com", "ingress-canary", some ⟨.int 8080⟩⟩⟩ ⟨.int 8080⟩
    ⟨200, "Hello OpenShift!", [("request-port", "9")]⟩
    (by decide) rfl (by decide) (by decide) (by decide)).1 (by decide)

/-! ### Route update helpers (route.go) -/

/-- `canaryRouteChanged`: deep-copies `current`, replaces its spec by
`expected`'s when the specs are not `cmp.Equal`, and returns whether a
change was detected together with the updated route (`nil` when not). -/
def canaryRouteChanged (current expected : Route) : Bool × Option Route :=
  if current.spec = expected.spec then (false, none)
  else (true, some { current with spec := expected.spec })

/-- `updateCanaryRoute`: runs `canaryRouteChanged` and issues the client
`Update` (which the environment may fail) only when a change was detected;
the returned bool says whether an update was issued. -/
def updateCanaryRoute (current desired : Route) (clientUpdateFails : Bool) :
    GoResult Bool :=
  match canaryRouteChanged current desired with
  | (false, _) => GoResult.ok false
  | (true, _) =>
    if clientUpdateFails then GoResult.err "failed to update canary route"
    else GoResult.ok true

/-- The route stored in the cluster after `updateCanaryRoute current desired`
succeeds: the updated route when a change was detected, `current` itself
otherwise. -/
def updateCanaryRouteResult (current desired : Route) : Route :=
  match canaryRouteChanged current desired with
  | (true, some updated) => updated
  | _ => current

/-- C9: applying the same desired route twice is a no-op the second time:
after an update the stored route's spec equals the desired spec, so
`canaryRouteChanged` on the updated route against the same desired route
detects no change, and a second `updateCanaryRoute` issues no client update
(it succeeds even when the client would fail). -/
theorem canaryRouteChanged_fixed_point (current desired : Route) :
    canaryRouteChanged (updateCanaryRouteResult current desired) desired = (false, none) ∧
    ∀ clientUpdateFails : Bool,
      updateCanaryRoute (updateCanaryRouteResult current desired) desired clientUpdateFails =
        GoResult.ok false := by
  have hspec : (updateCanaryRouteResult current desired).spec = desired.spec := by
    unfold updateCanaryRouteResult canaryRouteChanged
    by_cases h : current.spec = desired.spec
    · simp [h]
    · simp [h]
  have hch : canaryRouteChanged (updateCanaryRouteResult current desired) desired =
      (false, none) := by
    unfold canaryRouteChanged
    rw [if_pos hspec]
  refine ⟨hch, fun b => ?_⟩
  unfold updateCanaryRoute
  rw [hch]

/-! ### The monitor loop (`startCanaryRoutePolling`'s closure) -/

/-- `rotateRouteEndpoint`: chooses a new random service port (wrapping its
error), then writes the route via `updateCanaryRoute` (whose error it
returns); on success it returns the updated route. -/
def rotateRouteEndpoint (seed : Nat) (clientUpdateFails : Bool)
    (service : Service) (current : Route) : GoResult Route :=
  match chooseRandomServicePort seed service current with
  | .err m => .err ("Failed to rotate route port: " ++ m)
  | .panics => .panics
  | .ok updated =>
    match updateCanaryRoute current updated clientUpdateFails with
    | .err m => .err m
    | .panics => .panics
    | .ok _ => .ok updated

/-- What the external world supplies to one tick of the polling loop: the
route fetch (`none` for a read error or an absent route), the service fetch
(read only at the rotation boundary), the state of the random source, the
behaviour of the client `Update` call, and the network's behaviour for the
probe. -/
structure TickEnv where
  routeFetch : Option Route
  serviceFetch : Option Service
  seed : Nat
  clientUpdateFails : Bool
  probeEnv : ProbeEnv
deriving DecidableEq, Repr

/-- The externally visible outcome of one tick of the polling loop. -/
inductive TickAction where
  | routeFetchFailed
  | serviceFetchFailed
  | rotationFailed
  | rotated (updated : Route)
  | probed (success : Bool)
  | panicked
deriving DecidableEq, Repr

/-- One execution of the closure inside `startCanaryRoutePolling`, as a
function of the rotation counter `count`: fetch the route (log and return
on failure); when `count == 6` fetch the service and rotate — on success
log, reset the counter to 0 and return without probing, on failure log and
return with the counter untouched; otherwise probe the route and increment
the counter only when the probe succeeds. -/
def monitorTick (count : Nat) (env : TickEnv) : Nat × TickAction :=
  match env.routeFetch with
  | none => (count, .routeFetchFailed)
  | some route =>
    if count = 6 then
      match env.serviceFetch with
      | none => (count, .serviceFetchFailed)
      | some service =>
        match rotateRouteEndpoint env.seed env.clientUpdateFails service route with
        | .err _ => (count, .rotationFailed)
        | .panics => (count, .panicked)
        | .ok updated => (0, .rotated updated)
    else
      match testRouteEndpoint route env.probeEnv with
      | none => (count, .panicked)
      | some res =>
        if res.success then (count + 1, .probed true)
        else (count, .probed false)

/-- The rotation counter after running the loop body over a list of tick
environments in order. -/
def runTicks (count : Nat) : List TickEnv → Nat
  | [] => count
  | e :: rest => runTicks (monitorTick count e).fst rest

/-- Whether a tick environment fetches a route and its probe succeeds. -/
def successEnvB (e : TickEnv) : Bool :=
  match e.routeFetch with
  | none => false
  | some r =>
    match testRouteEndpoint r e.probeEnv with
    | none => false
    | some res => res.success

theorem monitorTick_success (count : Nat) (e : TickEnv) (hc : ¬count = 6)
    (hs : successEnvB e = true) :
    monitorTick count e = (count + 1, TickAction.probed true) := by
  unfold successEnvB at hs
  match hr : e.routeFetch with
  | none => simp [hr] at hs
  | some r =>
    simp only [hr] at hs
    match ht : testRouteEndpoint r e.probeEnv with
    | none => simp [ht] at hs
    | some res =>
      simp only [ht] at hs
      simp [monitorTick, hr, hc, ht, hs]

theorem runTicks_success (envs : List TickEnv) :
    ∀ count : Nat, (∀ e ∈ envs, successEnvB e = true) →
      count + envs.length ≤ 6 → runTicks count envs = count + envs.length := by
  induction envs with
  | nil =>
    intro count _ _
    simp [runTicks]
  | cons e rest ih =>
    intro count hall hle
    have hc : ¬count = 6 := by
      simp only [List.length_cons] at hle
      omega
    have h1 : runTicks count (e :: rest) = runTicks (monitorTick count e).fst rest := rfl
    rw [h1, monitorTick_success count e hc (hall e (List.mem_cons_self e rest))]
    rw [ih (count + 1) (fun x hx => hall x (List.mem_cons_of_mem e hx))
      (by simp only [List.length_cons] at hle; omega)]
    simp only [List.length_cons]
    omega

theorem monitorTick_probed_counts (c : Nat) (e : TickEnv) (b : Bool)
    (h : (monitorTick c e).snd = TickAction.probed b) :
    (monitorTick c e).fst = if b then c + 1 else c := by
  match hr : e.routeFetch with
  | none => simp [monitorTick, hr] at h
  | some r =>
    by_cases hc : c = 6
    · subst hc
      match hsf : e.serviceFetch with
      | none => simp [monitorTick, hr, hsf] at h
      | some s =>
        match hrot : rotateRouteEndpoint e.seed e.clientUpdateFails s r with
        | .err m => simp [monitorTick, hr, hsf, hrot] at h
        | .panics => simp [monitorTick, hr, hsf, hrot] at h
        | .ok u => simp [monitorTick, hr, hsf, hrot] at h
    · match ht : testRouteEndpoint r e.probeEnv with
      | none => simp [monitorTick, hr, hc, ht] at h
      | some res =>
        cases hb : res.success with
        | false => cases b <;> simp_all [monitorTick, hr, hc, ht, hb]
        | true => cases b <;> simp_all [monitorTick, hr, hc, ht, hb]

/-- C4: the rotation counter rises by one exactly on ticks whose probe is
classified a success and stays put on failed ticks; a tick starting at the
counter value 6 with working fetches and a working rotation performs the
rotation — not a probe — and resets the counter to 0; and six consecutive
successful ticks from a fresh counter end at 6, so the seventh tick is such
a rotation tick. -/
theorem rotation_counter_schedule (c : Nat) (e e7 : TickEnv)
    (envs : List TickEnv) (service : Service) (route updated : Route)
    (hr : e7.routeFetch = some route) (hs : e7.serviceFetch = some service)
    (hrot : rotateRouteEndpoint e7.seed e7.clientUpdateFails service route =
      GoResult.ok updated)
    (hsucc : ∀ x ∈ envs, successEnvB x = true) (hlen : envs.length = 6) :
    ((monitorTick c e).snd = TickAction.probed false → (monitorTick c e).fst = c) ∧
    ((monitorTick c e).snd = TickAction.probed true → (monitorTick c e).fst = c + 1) ∧
    monitorTick 6 e7 = (0, TickAction.rotated updated) ∧
    runTicks 0 envs = 6 := by
  refine ⟨?_, ?_, ?_, ?_⟩
  · intro h
    simpa using monitorTick_probed_counts c e false h
  · intro h
    simpa using monitorTick_probed_counts c e true h
  · simp [monitorTick, hr, hs, hrot]
  · have := runTicks_success envs 0 hsucc (by omega)
    omega

/-- Concrete canary route on target port 8080. -/
def sampleRoute : Route := ⟨⟨"canary.example.com", "ingress-canary", some ⟨.int 8080⟩⟩⟩

/-- Concrete canary service with two target ports. -/
def sampleService : Service := ⟨⟨[⟨"http", .int 8080⟩, ⟨"https", .int 8888⟩]⟩⟩

/-- Concrete response making the probe of `sampleRoute` succeed. -/
def sampleOkResponse : HTTPResponse := ⟨200, "Hello OpenShift!", [("request-port", "8080")]⟩

/-- Tick environment whose probe succeeds and whose rotation would work. -/
def probeOkEnv : TickEnv := ⟨some sampleRoute, some sampleService, 0, false, .response sampleOkResponse⟩

/-- C4 witness: with working fetches, a tick at counter 6 rotates to port
8888 and resets the counter, and six successful ticks drive the counter
from 0 to 6. -/
theorem rotation_counter_schedule_witness :
    monitorTick 6 probeOkEnv = (0, TickAction.rotated (withTargetPort sampleRoute (.int 8888))) ∧
    runTicks 0 (List.replicate 6 probeOkEnv) = 6 := by
  have h := rotation_counter_schedule 0 probeOkEnv probeOkEnv
    (List.replicate 6 probeOkEnv) sampleService sampleRoute
    (withTargetPort sampleRoute (.int 8888)) rfl rfl (by decide) (by decide) (by decide)
  exact ⟨h.2.2.1, h.2.2.2⟩

/-- Concrete single-port canary service: rotation on it fails. -/
def singlePortService : Service := ⟨⟨[⟨"http", .int 8080⟩]⟩⟩

/-- Tick environment at which rotation fails (single-port service) while a
probe of the fetched route would succeed. -/
def rotationFailEnv : TickEnv := ⟨some sampleRoute, some singlePortService, 0, false, .response sampleOkResponse⟩

/-- C2 counterexample: at the rotation boundary with a single-port service
the rotation fails and the tick ends at the logged failure: the action is
the rotation failure — not a probe — and the counter is unchanged, even
though this environment's probe would have succeeded had it been issued.
The claim that the loop still probes in that same tick is false. -/
theorem rotation_failure_tick_does_not_probe_cex :
    monitorTick 6 rotationFailEnv = (6, TickAction.rotationFailed) ∧
    (monitorTick 6 rotationFailEnv).snd ≠ TickAction.probed true ∧
    (monitorTick 6 rotationFailEnv).snd ≠ TickAction.probed false ∧
    successEnvB rotationFailEnv = true := by
  decide

/-- C2 amended: when the tick is at the rotation boundary and the rotation
attempt fails (for example because the service has only one port), the
failure is logged and the tick ends immediately: the route's endpoint is
not probed in that tick and the counter keeps the value 6, so the rotation
is retried at the next tick. -/
theorem rotation_failure_ends_tick (e : TickEnv) (service : Service)
    (route : Route) (m : String)
    (hr : e.routeFetch = some route) (hs : e.serviceFetch = some service)
    (hrot : rotateRouteEndpoint e.seed e.clientUpdateFails service route =
      GoResult.err m) :
    monitorTick 6 e = (6, TickAction.rotationFailed) := by
  simp [monitorTick, hr, hs, hrot]

/-- C2 amended witness: the single-port environment ends its boundary tick
at the rotation failure. -/
theorem rotation_failure_ends_tick_witness :
    monitorTick 6 rotationFailEnv = (6, TickAction.rotationFailed) :=
  rotation_failure_ends_tick rotationFailEnv singlePortService sampleRoute
    ("Failed to rotate route port: " ++ "Service has only one port, no change possible")
    rfl rfl (by decide)

/-- C8: when the rotation's write of the new target port fails, the tick
ends at the logged failure with the counter still 6 (not reset), so the
next tick is again a rotation boundary: with its fetches working it never
probes, when its rotation succeeds it performs the rotation, and its whole
outcome is exactly that of the retried rotation attempt. -/
theorem rotation_write_failure_retries (e e2 : TickEnv)
    (service service2 : Service) (route route2 u : Route) (m : String)
    (hr : e.routeFetch = some route) (hs : e.serviceFetch = some service)
    (hchoose : chooseRandomServicePort e.seed service route = GoResult.ok u)
    (hwrite : updateCanaryRoute route u e.clientUpdateFails = GoResult.err m)
    (hr2 : e2.routeFetch = some route2) (hs2 : e2.serviceFetch = some service2) :
    monitorTick 6 e = (6, TickAction.rotationFailed) ∧
    (∀ b, (monitorTick (monitorTick 6 e).fst e2).snd ≠ TickAction.probed b) ∧
    (∀ u2, rotateRouteEndpoint e2.seed e2.clientUpdateFails service2 route2 =
        GoResult.ok u2 →
      monitorTick (monitorTick 6 e).fst e2 = (0, TickAction.rotated u2)) ∧
    monitorTick (monitorTick 6 e).fst e2 =
      (match rotateRouteEndpoint e2.seed e2.clientUpdateFails service2 route2 with
       | .err _ => (6, TickAction.rotationFailed)
       | .panics => (6, TickAction.panicked)
       | .ok u2 => (0, TickAction.rotated u2)) := by
  have h1 : monitorTick 6 e = (6, TickAction.rotationFailed) := by
    have hrot : rotateRouteEndpoint e.seed e.clientUpdateFails service route =
        GoResult.err m := by
      simp [rotateRouteEndpoint, hchoose, hwrite]
    simp [monitorTick, hr, hs, hrot]
  refine ⟨h1, ?_, ?_, ?_⟩
  · intro b
    simp only [h1]
    match hrot2 : rotateRouteEndpoint e2.seed e2.clientUpdateFails service2 route2 with
    | .err m2 => simp [monitorTick, hr2, hs2, hrot2]
    | .panics => simp [monitorTick, hr2, hs2, hrot2]
    | .ok u2 => simp [monitorTick, hr2, hs2, hrot2]
  · intro u2 hrot2
    simp only [h1]
    simp [monitorTick, hr2, hs2, hrot2]
  · simp only [h1]
    match hrot2 : rotateRouteEndpoint e2.seed e2.clientUpdateFails service2 route2 with
    | .err m2 => simp [monitorTick, hr2, hs2, hrot2]
    | .panics => simp [monitorTick, hr2, hs2, hrot2]
    | .ok u2 => simp [monitorTick, hr2, hs2, hrot2]

/-- Tick environment whose client `Update` call fails. -/
def writeFailEnv : TickEnv := ⟨some sampleRoute, some sampleService, 0, true, .response sampleOkResponse⟩

/-- C8 witness: the failed write leaves the counter at 6 and the following
tick rotates. -/
theorem rotation_write_failure_retries_witness :
    monitorTick 6 writeFailEnv = (6, TickAction.rotationFailed) ∧
    monitorTick (monitorTick 6 writeFailEnv).fst probeOkEnv =
      (0, TickAction.rotated (withTargetPort sampleRoute (.int 8888))) := by
  have h := rotation_write_failure_retries writeFailEnv probeOkEnv
    sampleService sampleService sampleRoute sampleRoute
    (withTargetPort sampleRoute (.int 8888)) "failed to update canary route"
    rfl rfl (by decide) (by decide) rfl rfl
  exact ⟨h.1, h.2.2.1 (withTargetPort sampleRoute (.int 8888)) (by decide)⟩

end Canary
